import Mathlib

/-!
Verification of the Job Lifecycle Manager of the robotics-training-backend
repository (FastAPI routers over a Supabase job store and an SQS work queue).

The Python code is shallowly embedded as pure Lean functions with explicit
state passing:

* the Supabase `jobs` table is a `DB` value (a list of rows plus a fresh-id
  counter); each `SupabaseService` method from `app/services/supabase_client.py`
  becomes a function over `DB` returning `Except String` (a raised
  `Exception(f"Database error: ...")` is the `.error` case, injected by a
  `storeOk : Bool` fault flag standing for whether the remote store call
  succeeds during the request);
* the SQS queue is a list of messages; `SQSService.send_job_to_queue` from
  `app/services/sqs_client.py` takes the service's `is_configured` flag and a
  `sendOk` flag standing for the outcome of the remote `send_message` call;
* the route handlers of `app/routers/jobs.py` become functions returning
  `Except HttpError`, where `HttpError` mirrors the `HTTPException` status
  codes actually raised (401, 404, 500);
* wall-clock time is an explicit `now : Nat` parameter.

Behaviour that lives inside Supabase itself (id assignment, timestamps,
`order("created_at", desc=True)`, the row-matching semantics of
`.eq`/`update`) is not Python code of the repository; those pieces are
modelled from the spec and marked as such in their doc comments.
-/

/-- `JobStatus` from `app/models/job.py`: pending | training | completed | failed. -/
inductive JobStatus where
  | pending
  | training
  | completed
  | failed
deriving DecidableEq, Repr

/-- `JobCreate` from `app/models/job.py`; pydantic defaults reproduced
(`model_type="policy_network"`, `dataset_path=None`, `hyperparameters={}`).
The open `hyperparameters` dict is modelled as an association list of opaque
string pairs. -/
structure JobCreate where
  name : String
  model_type : Option String := some "policy_network"
  dataset_path : Option String := none
  hyperparameters : List (String × String) := []
deriving DecidableEq, Repr

/-- A row of the Supabase `jobs` table: the columns written by
`SupabaseService.create_job` / `update_job` plus the store-maintained columns
(`id`, `created_at`, `updated_at`) that `JobResponse` reads back. -/
structure JobRow where
  id : String
  user_id : String
  name : String
  model_type : Option String
  dataset_path : Option String
  hyperparameters : List (String × String)
  status : JobStatus
  modal_call_id : Option String
  error_message : Option String
  training_logs : Option String
  created_at : Nat
  updated_at : Option Nat
deriving DecidableEq, Repr

/-- `JobResponse` from `app/models/job.py`: the subset of columns returned to
callers (pydantic ignores the extra columns of the row). -/
structure JobResponse where
  id : String
  name : String
  status : JobStatus
  created_at : Nat
  updated_at : Option Nat
  modal_call_id : Option String := none
  error_message : Option String := none
deriving DecidableEq, Repr

/-- `JobUpdate` from `app/models/job.py`: every field optional, `None` meaning
absent. -/
structure JobUpdate where
  status : Option JobStatus := none
  modal_call_id : Option String := none
  error_message : Option String := none
  training_logs : Option String := none
deriving DecidableEq, Repr

/-- `JobResponse(**row)`: project a table row onto the response model. -/
def toResponse (r : JobRow) : JobResponse :=
  { id := r.id
    name := r.name
    status := r.status
    created_at := r.created_at
    updated_at := r.updated_at
    modal_call_id := r.modal_call_id
    error_message := r.error_message }

/-- The state of the Supabase `jobs` table: its rows, plus the counter the
store uses to mint fresh ids. -/
structure DB where
  rows : List JobRow
  nextId : Nat
deriving DecidableEq, Repr

/-- Modelled from the spec: the Job Store assigns each created Job an opaque
unique identifier; we mint `"job-<n>"` from the store's counter, which is in
particular never the empty string. -/
def freshId (n : Nat) : String := "job-" ++ toString n

/-- The Python truthiness test `if user_id:` guarding
`query.eq("user_id", user_id)` in `get_job_by_id` / `update_job`: the owner
filter is applied only when `user_id` is present and non-empty. -/
def ownerFilter (uidOpt : Option String) (r : JobRow) : Bool :=
  match uidOpt with
  | none => true
  | some u => if u = "" then true else r.user_id == u

/-- Modelled from the spec: which rows a Supabase query
`.eq("id", job_id)` (plus the optional `.eq("user_id", user_id)`) selects. -/
def matchesJob (job_id : String) (uidOpt : Option String) (r : JobRow) : Bool :=
  r.id == job_id && ownerFilter uidOpt r

/-- Modelled from the spec: applying a Supabase partial `update(update_data)`
to one selected row, where `update_data` is
`{k: v for k, v in update.dict().items() if v is not None}` (from
`SupabaseService.update_job`): each field present in the `JobUpdate` is
overwritten, each absent field keeps the row's value, and the store refreshes
`updated_at` on the mutation (spec §3: "`updated_at`: set on every mutation";
this refresh is store-side, not in the Python code). -/
def applyUpdate (now : Nat) (u : JobUpdate) (r : JobRow) : JobRow :=
  { r with
    status := u.status.getD r.status
    modal_call_id := match u.modal_call_id with
      | some v => some v
      | none => r.modal_call_id
    error_message := match u.error_message with
      | some v => some v
      | none => r.error_message
    training_logs := match u.training_logs with
      | some v => some v
      | none => r.training_logs
    updated_at := some now }

/-- Ordering of a `JobRow` listing: `a` before `b` when `a` was created no
earlier than `b` (newest first). -/
def leCreatedDesc (a b : JobRow) : Prop := b.created_at ≤ a.created_at

instance : DecidableRel leCreatedDesc :=
  fun a b => Nat.decLe b.created_at a.created_at

instance : IsTotal JobRow leCreatedDesc :=
  ⟨fun a b => le_total b.created_at a.created_at⟩

instance : IsTrans JobRow leCreatedDesc :=
  ⟨fun _ _ _ h1 h2 => le_trans h2 h1⟩

/-- Modelled from the spec: the result ordering of a Supabase query with
`.order("created_at", desc=True)` — the rows sorted newest-first by
`created_at`. -/
def ordByCreatedDesc (rows : List JobRow) : List JobRow :=
  List.insertionSort leCreatedDesc rows

/-- `SupabaseService.create_job` (`app/services/supabase_client.py`): insert a
row with the caller's `user_id`, the submitted fields and `status = "pending"`,
and return it as a `JobResponse`. The store assigns `id` and `created_at`
(modelled from the spec). `storeOk = false` is the `except` path: the raised
`Exception(f"Database error: ...")`. -/
def SupabaseService.create_job (storeOk : Bool) (now : Nat)
    (job : JobCreate) (user_id : String) (db : DB) :
    Except String (JobResponse × DB) :=
  if storeOk then
    let row : JobRow :=
      { id := freshId db.nextId
        user_id := user_id
        name := job.name
        model_type := job.model_type
        dataset_path := job.dataset_path
        hyperparameters := job.hyperparameters
        status := JobStatus.pending
        modal_call_id := none
        error_message := none
        training_logs := none
        created_at := now
        updated_at := some now }
    Except.ok (toResponse row, { rows := db.rows ++ [row], nextId := db.nextId + 1 })
  else
    Except.error "Database error: store unavailable"

/-- `SupabaseService.get_jobs_by_user`: rows filtered by `user_id`, ordered
`created_at` descending. -/
def SupabaseService.get_jobs_by_user (storeOk : Bool) (user_id : String)
    (db : DB) : Except String (List JobResponse) :=
  if storeOk then
    Except.ok ((ordByCreatedDesc (db.rows.filter (fun r => r.user_id == user_id))).map toResponse)
  else
    Except.error "Database error: store unavailable"

/-- `SupabaseService.get_all_jobs`: all rows, ordered `created_at`
descending, no owner filter. -/
def SupabaseService.get_all_jobs (storeOk : Bool) (db : DB) :
    Except String (List JobResponse) :=
  if storeOk then
    Except.ok ((ordByCreatedDesc db.rows).map toResponse)
  else
    Except.error "Database error: store unavailable"

/-- `SupabaseService.get_job_by_id`: select by `id`, and by `user_id` too when
that is provided (and truthy); `result.data` nonempty yields the first row,
otherwise `None`. -/
def SupabaseService.get_job_by_id (storeOk : Bool) (job_id : String)
    (uidOpt : Option String) (db : DB) :
    Except String (Option JobResponse) :=
  if storeOk then
    match (db.rows.filter (matchesJob job_id uidOpt)).head? with
    | some r => Except.ok (some (toResponse r))
    | none => Except.ok none
  else
    Except.error "Database error: store unavailable"

/-- `SupabaseService.update_job`: apply the non-`None` fields of the
`JobUpdate` to every row matching `id` (and `user_id` when provided and
truthy); return the first updated row, or `None` when nothing matched. -/
def SupabaseService.update_job (storeOk : Bool) (now : Nat) (job_id : String)
    (u : JobUpdate) (uidOpt : Option String) (db : DB) :
    Except String (Option JobResponse × DB) :=
  if storeOk then
    let db' : DB :=
      { db with rows := db.rows.map (fun r =>
          if matchesJob job_id uidOpt r then applyUpdate now u r else r) }
    match (db.rows.filter (matchesJob job_id uidOpt)).head? with
    | some r => Except.ok (some (toResponse (applyUpdate now u r)), db')
    | none => Except.ok (none, db')
  else
    Except.error "Database error: store unavailable"

/-- The payload `job_data` dict built in `submit_job`
(`app/routers/jobs.py`). -/
structure JobData where
  name : String
  model_type : Option String
  dataset_path : Option String
  hyperparameters : List (String × String)
  user_id : String
deriving DecidableEq, Repr

/-- A message on the SQS queue (`message_body` of `send_job_to_queue`). -/
structure QueueMessage where
  job_id : String
  job_data : JobData
deriving DecidableEq, Repr

/-- `SQSService.send_job_to_queue` (`app/services/sqs_client.py`): when the
client is not configured (`SQS_QUEUE_URL` missing or the placeholder, or boto3
init failed) it returns `True` without sending anything ("Simulate success for
development"); when configured, a successful `send_message` (`sendOk`) appends
the message and returns `True`, and a `ClientError`/exception returns
`False`. -/
def SQSService.send_job_to_queue (is_configured sendOk : Bool)
    (q : List QueueMessage) (job_id : String) (job_data : JobData) :
    Bool × List QueueMessage :=
  if !is_configured then
    (true, q)
  else if sendOk then
    (true, q ++ [{ job_id := job_id, job_data := job_data }])
  else
    (false, q)

/-- The `HTTPException`s raised by the routers and auth dependency:
401 Unauthorized, 404 Not Found, 500 Internal Server Error. -/
inductive HttpError where
  | unauthorized (detail : String)
  | notFound (detail : String)
  | serverError (detail : String)
deriving DecidableEq, Repr

/-- `get_current_user_id` (`app/dependencies/auth.py`) composed with
`clerk_auth.get_user_id`: `resolved` is the verified token's `sub` claim
(`none` when the credential is missing/invalid or the claim absent). A missing
or falsy `sub` raises, surfacing as 401; otherwise the non-empty user id is
returned. -/
def get_current_user_id (resolved : Option String) : Except HttpError String :=
  match resolved with
  | none => Except.error (HttpError.unauthorized "Invalid authentication credentials")
  | some uid =>
      if uid = "" then
        Except.error (HttpError.unauthorized "Invalid authentication credentials")
      else
        Except.ok uid

/-- The compensating update issued by `submit_job` when the queue send fails:
`JobUpdate(status="failed", error_message="Failed to queue job")`. -/
def queueFailUpdate : JobUpdate :=
  { status := some JobStatus.failed
    error_message := some "Failed to queue job" }

/-- `submit_job` (`app/routers/jobs.py`), after auth: create the job in
Supabase, send it to SQS, and on queue failure issue the compensating
`update_job(status="failed", error_message="Failed to queue job")` and raise
500. The `HTTPException` raised inside the `try` block is caught by the
generic `except Exception` clause and re-raised, still as a 500. Returns the
HTTP outcome together with the resulting store and queue states. -/
def submit_job (storeOk is_configured sendOk : Bool) (now : Nat)
    (job : JobCreate) (current_user_id : String) (db : DB)
    (q : List QueueMessage) :
    Except HttpError JobResponse × DB × List QueueMessage :=
  match SupabaseService.create_job storeOk now job current_user_id db with
  | Except.error e =>
      (Except.error (HttpError.serverError ("Failed to submit job: " ++ e)), db, q)
  | Except.ok (created_job, db1) =>
      let job_data : JobData :=
        { name := job.name
          model_type := job.model_type
          dataset_path := job.dataset_path
          hyperparameters := job.hyperparameters
          user_id := current_user_id }
      let sendRes := SQSService.send_job_to_queue is_configured sendOk q created_job.id job_data
      if sendRes.1 then
        (Except.ok created_job, db1, sendRes.2)
      else
        match SupabaseService.update_job storeOk now created_job.id
            queueFailUpdate (some current_user_id) db1 with
        | Except.error e =>
            (Except.error (HttpError.serverError ("Failed to submit job: " ++ e)), db1, sendRes.2)
        | Except.ok (_, db2) =>
            (Except.error (HttpError.serverError
              "Failed to submit job: Job created but failed to queue for processing"), db2, sendRes.2)

/-- The `/api/jobs/submit-job` route including its
`Depends(get_current_user_id)`. -/
def handle_submit_job (resolved : Option String) (storeOk is_configured sendOk : Bool)
    (now : Nat) (job : JobCreate) (db : DB) (q : List QueueMessage) :
    Except HttpError JobResponse × DB × List QueueMessage :=
  match get_current_user_id resolved with
  | Except.error e => (Except.error e, db, q)
  | Except.ok uid => submit_job storeOk is_configured sendOk now job uid db q

/-- `get_user_jobs` (`app/routers/jobs.py`): the authenticated user's jobs;
store failure surfaces as 500. -/
def handle_get_user_jobs (resolved : Option String) (storeOk : Bool) (db : DB) :
    Except HttpError (List JobResponse) :=
  match get_current_user_id resolved with
  | Except.error e => Except.error e
  | Except.ok uid =>
      match SupabaseService.get_jobs_by_user storeOk uid db with
      | Except.error e => Except.error (HttpError.serverError ("Failed to fetch jobs: " ++ e))
      | Except.ok js => Except.ok js

/-- `get_all_jobs` (`app/routers/jobs.py`): the `/api/jobs/all` route. The
route declares no auth dependency ("admin endpoint - no authentication for
now"), so the caller's credential — kept here as a parameter to make that
visible — is never consulted. -/
def handle_get_all_jobs (_resolved : Option String) (storeOk : Bool) (db : DB) :
    Except HttpError (List JobResponse) :=
  match SupabaseService.get_all_jobs storeOk db with
  | Except.error e => Except.error (HttpError.serverError ("Failed to fetch jobs: " ++ e))
  | Except.ok js => Except.ok js

/-- `get_job` (`app/routers/jobs.py`): fetch a job by id scoped to the
authenticated user; a missing (or other-owned) job is 404 "Job not found or
access denied". -/
def handle_get_job (resolved : Option String) (storeOk : Bool) (job_id : String)
    (db : DB) : Except HttpError JobResponse :=
  match get_current_user_id resolved with
  | Except.error e => Except.error e
  | Except.ok uid =>
      match SupabaseService.get_job_by_id storeOk job_id (some uid) db with
      | Except.error e => Except.error (HttpError.serverError ("Failed to fetch job: " ++ e))
      | Except.ok none => Except.error (HttpError.notFound "Job not found or access denied")
      | Except.ok (some j) => Except.ok j

/-- The row that `SupabaseService.create_job` inserts for a submission. -/
def insertedRow (now : Nat) (job : JobCreate) (user_id : String) (db : DB) : JobRow :=
  { id := freshId db.nextId
    user_id := user_id
    name := job.name
    model_type := job.model_type
    dataset_path := job.dataset_path
    hyperparameters := job.hyperparameters
    status := JobStatus.pending
    modal_call_id := none
    error_message := none
    training_logs := none
    created_at := now
    updated_at := some now }

/-- Ordering of a `JobResponse` listing, newest first. -/
def respLeDesc (a b : JobResponse) : Prop := b.created_at ≤ a.created_at

/-- A concrete stored job of owner `u1` (the scenario of spec §8). -/
def rowA : JobRow :=
  { id := "job-0", user_id := "u1", name := "grasp-v1",
    model_type := some "policy_network", dataset_path := none,
    hyperparameters := [], status := JobStatus.pending,
    modal_call_id := none, error_message := none, training_logs := none,
    created_at := 1, updated_at := some 1 }

/-- A concrete stored job of a different owner `u2`, created later. -/
def rowB : JobRow :=
  { rowA with id := "job-1", user_id := "u2", created_at := 2, updated_at := some 2 }

/-- A third concrete stored job of owner `u1`, created last. -/
def rowC : JobRow :=
  { rowA with id := "job-2", created_at := 3, updated_at := some 3 }

/-- A concrete store holding three jobs of two owners, created at distinct
times. -/
def exampleDb : DB := { rows := [rowA, rowB, rowC], nextId := 3 }

/-- A concrete stored job that has reached the terminal status `completed`. -/
def rowDone : JobRow :=
  { rowA with
    id := "job-7", status := JobStatus.completed,
    created_at := 3, updated_at := some 3 }

/-- A store holding only the completed job `rowDone`. -/
def dbDone : DB := { rows := [rowDone], nextId := 8 }

/-- `rowDone` after a status update back to `pending` at time 9. -/
def rowDonePending : JobRow :=
  { rowDone with
    status := JobStatus.pending, updated_at := some 9 }

lemma create_job_eq (now : Nat) (job : JobCreate) (uid : String) (db : DB) :
    SupabaseService.create_job true now job uid db =
      Except.ok (toResponse (insertedRow now job uid db),
        { rows := db.rows ++ [insertedRow now job uid db], nextId := db.nextId + 1 }) := rfl

lemma freshId_ne_empty (n : Nat) : freshId n ≠ "" := by
  intro h
  have hlen := congrArg String.length h
  rw [freshId, String.length_append] at hlen
  have h4 : ("job-" : String).length = 4 := rfl
  have h0 : ("" : String).length = 0 := rfl
  omega

lemma matchesJob_inserted (now : Nat) (job : JobCreate) (uid : String) (db : DB) :
    matchesJob (insertedRow now job uid db).id (some uid) (insertedRow now job uid db) = true := by
  show ((insertedRow now job uid db).id == (insertedRow now job uid db).id &&
    (if uid = "" then true else (insertedRow now job uid db).user_id == uid)) = true
  rw [beq_self_eq_true, Bool.true_and]
  by_cases h : uid = ""
  · rw [if_pos h]
  · rw [if_neg h]
    exact beq_self_eq_true uid

lemma update_job_ok (now : Nat) (job_id : String) (u : JobUpdate)
    (uidOpt : Option String) (db : DB) :
    ∃ res db', SupabaseService.update_job true now job_id u uidOpt db =
        Except.ok (res, db') ∧
      db'.rows = db.rows.map (fun r =>
        if matchesJob job_id uidOpt r then applyUpdate now u r else r) := by
  cases h : (db.rows.filter (matchesJob job_id uidOpt)).head? with
  | some r =>
      refine ⟨some (toResponse (applyUpdate now u r)),
        { db with rows := db.rows.map (fun r =>
            if matchesJob job_id uidOpt r then applyUpdate now u r else r) }, ?_, rfl⟩
      simp [SupabaseService.update_job, h]
  | none =>
      refine ⟨none,
        { db with rows := db.rows.map (fun r =>
            if matchesJob job_id uidOpt r then applyUpdate now u r else r) }, ?_, rfl⟩
      simp [SupabaseService.update_job, h]

lemma forall2_map_of_forall {α : Type} {P : α → α → Prop} (f : α → α)
    (h : ∀ a, P a (f a)) : ∀ l : List α, List.Forall₂ P l (l.map f)
  | [] => List.Forall₂.nil
  | a :: l => List.Forall₂.cons (h a) (forall2_map_of_forall f h l)

lemma sorted_ordByCreatedDesc_map (rows : List JobRow) :
    ((ordByCreatedDesc rows).map toResponse).Sorted respLeDesc := by
  have h := List.sorted_insertionSort leCreatedDesc rows
  exact List.Pairwise.map toResponse (fun a b hab => hab) h

/-- C1: for every submission where the store write succeeds and the queue send
then fails, `submit_job` issues the compensating update, so the persisted Job
row ends with `status = failed` and the non-empty `error_message`
"Failed to queue job", and the operation reports a server-side error (HTTP
500, the `DispatchFailure`) to the caller — the Job is never left silently
pending. -/
theorem submit_queueFail_compensates (now : Nat) (job : JobCreate) (uid : String)
    (db : DB) (q : List QueueMessage) :
    (submit_job true true false now job uid db q).1 =
      Except.error (HttpError.serverError
        "Failed to submit job: Job created but failed to queue for processing") ∧
    (submit_job true true false now job uid db q).2.2 = q ∧
    ∃ row ∈ (submit_job true true false now job uid db q).2.1.rows,
      row.id = freshId db.nextId ∧ row.user_id = uid ∧
      row.status = JobStatus.failed ∧
      row.error_message = some "Failed to queue job" ∧
      "Failed to queue job" ≠ "" := by
  obtain ⟨res, db2, hupd, hrows⟩ :=
    update_job_ok now (insertedRow now job uid db).id queueFailUpdate
      (some uid) { rows := db.rows ++ [insertedRow now job uid db], nextId := db.nextId + 1 }
  have hsub : submit_job true true false now job uid db q =
      (Except.error (HttpError.serverError
        "Failed to submit job: Job created but failed to queue for processing"), db2, q) := by
    unfold submit_job
    rw [create_job_eq]
    simp only [SQSService.send_job_to_queue, Bool.not_true, Bool.false_eq_true,
      if_false, if_true, toResponse]
    rw [hupd]
  have hfeq : (if matchesJob (insertedRow now job uid db).id (some uid)
          (insertedRow now job uid db) then
        applyUpdate now queueFailUpdate (insertedRow now job uid db)
      else insertedRow now job uid db) =
      applyUpdate now queueFailUpdate (insertedRow now job uid db) := by
    rw [matchesJob_inserted]
    exact if_pos rfl
  have hmem : insertedRow now job uid db ∈ db.rows ++ [insertedRow now job uid db] :=
    List.mem_append_right _ (List.mem_singleton.mpr rfl)
  refine ⟨by rw [hsub], by rw [hsub], ?_⟩
  rw [hsub]
  refine ⟨applyUpdate now queueFailUpdate (insertedRow now job uid db),
    ?_, rfl, rfl, rfl, rfl, by decide⟩
  rw [hrows, List.mem_map]
  exact ⟨insertedRow now job uid db, hmem, hfeq⟩

/-- C2: for every submission where the store write fails, `submit_job` reports
the storage failure as a server-side error and returns with the store and the
queue exactly as they were — no Job record is created and no queue send is
attempted. -/
theorem submit_storeFail_no_job_no_send (is_configured sendOk : Bool) (now : Nat)
    (job : JobCreate) (uid : String) (db : DB) (q : List QueueMessage) :
    submit_job false is_configured sendOk now job uid db q =
      (Except.error (HttpError.serverError
        "Failed to submit job: Database error: store unavailable"), db, q) := by
  rfl

/-- C3: an owner-scoped fetch-by-id by an authenticated caller (whose resolved
principal is never empty) for a Job that exists but belongs to a different
owner returns exactly the 404 `NotFound` error — the same result as for a
missing Job — never the Job data and never a Forbidden-style error. -/
theorem get_job_other_owner_notFound (caller job_id : String) (db : DB)
    (hcaller : caller ≠ "")
    (_hexists : ∃ r ∈ db.rows, r.id = job_id ∧ r.user_id ≠ caller)
    (hother : ∀ r ∈ db.rows, r.id = job_id → r.user_id ≠ caller) :
    handle_get_job (some caller) true job_id db =
      Except.error (HttpError.notFound "Job not found or access denied") := by
  have hfilter : db.rows.filter (matchesJob job_id (some caller)) = [] := by
    rw [List.filter_eq_nil_iff]
    intro r hr hm
    have hand := (Bool.and_eq_true _ _).mp hm
    have hid : r.id = job_id := by
      have := hand.1
      exact eq_of_beq this
    have howner : (if caller = "" then true else r.user_id == caller) = true := hand.2
    rw [if_neg hcaller] at howner
    exact hother r hr hid (eq_of_beq howner)
  have hq : SupabaseService.get_job_by_id true job_id (some caller) db =
      Except.ok none := by
    unfold SupabaseService.get_job_by_id
    rw [if_pos rfl, hfilter]
    rfl
  simp only [handle_get_job, get_current_user_id, if_neg hcaller, hq]

/-- C3 witness: in the three-job store, owner `u1` fetching the job `job-1`
owned by `u2` gets 404. -/
theorem get_job_other_owner_notFound_witness :
    handle_get_job (some "u1") true "job-1" exampleDb =
      Except.error (HttpError.notFound "Job not found or access denied") :=
  get_job_other_owner_notFound "u1" "job-1" exampleDb (by decide)
    ⟨rowB, by simp [exampleDb], rfl, by decide⟩ (by decide)

/-- C4 counterexample: the data layer has no terminal-state guard. The store
`dbDone` holds the completed job `job-7`; a later status update with
`status = pending` succeeds and moves it back to `pending`, refuting the
claim that no later update can leave a terminal state. -/
theorem terminal_status_not_guarded_cex :
    rowDone.status = JobStatus.completed ∧
    SupabaseService.update_job true 9 "job-7"
        { status := some JobStatus.pending } none dbDone =
      Except.ok (some (toResponse rowDonePending), { rows := [rowDonePending], nextId := 8 }) ∧
    (toResponse rowDonePending).status = JobStatus.pending := by
  exact ⟨rfl, rfl, rfl⟩

/-- C4 amended: `update_job` applies a present `status` unconditionally, so a
Job whose status is terminal (`completed` or `failed`) can be moved to any
status — including the non-terminal `pending` and `training` — by a later
update. -/
theorem update_can_leave_terminal (now : Nat) (db : DB) (r : JobRow) (s : JobStatus)
    (hr : r ∈ db.rows)
    (_hterm : r.status = JobStatus.completed ∨ r.status = JobStatus.failed) :
    ∃ res db', SupabaseService.update_job true now r.id
        { status := some s } none db = Except.ok (res, db') ∧
      ∃ r' ∈ db'.rows, r'.id = r.id ∧ r'.status = s := by
  obtain ⟨res, db', hupd, hrows⟩ := update_job_ok now r.id { status := some s } none db
  refine ⟨res, db', hupd, applyUpdate now { status := some s } r, ?_, rfl, rfl⟩
  rw [hrows, List.mem_map]
  refine ⟨r, hr, ?_⟩
  have hm : matchesJob r.id none r = true := by
    show (r.id == r.id && true) = true
    rw [beq_self_eq_true]
    rfl
  rw [hm]
  exact if_pos rfl

/-- C4 witness: the completed job `job-7` is moved back to `pending` by an
update. -/
theorem update_can_leave_terminal_witness :
    ∃ res db', SupabaseService.update_job true 9 rowDone.id
        { status := some JobStatus.pending } none dbDone = Except.ok (res, db') ∧
      ∃ r' ∈ db'.rows, r'.id = rowDone.id ∧ r'.status = JobStatus.pending :=
  update_can_leave_terminal 9 dbDone rowDone JobStatus.pending
    (by simp [dbDone]) (Or.inl rfl)

/-- C5: `update_job` has merge semantics — for every update whose `status`,
`modal_call_id` (the dispatch reference) and `error_message` are absent (such
as an update carrying only `training_logs`), the update succeeds and every
row of the store keeps its `status`, `error_message`, `modal_call_id` and all
other identity fields unchanged. -/
theorem update_absent_fields_untouched (now : Nat) (job_id : String)
    (uidOpt : Option String) (u : JobUpdate) (db : DB)
    (hs : u.status = none) (hmc : u.modal_call_id = none)
    (he : u.error_message = none) :
    ∃ res db', SupabaseService.update_job true now job_id u uidOpt db =
        Except.ok (res, db') ∧
      List.Forall₂ (fun r r' =>
        r'.status = r.status ∧ r'.error_message = r.error_message ∧
        r'.modal_call_id = r.modal_call_id ∧ r'.id = r.id ∧
        r'.user_id = r.user_id ∧ r'.name = r.name ∧
        r'.model_type = r.model_type ∧ r'.dataset_path = r.dataset_path ∧
        r'.hyperparameters = r.hyperparameters ∧ r'.created_at = r.created_at)
        db.rows db'.rows := by
  obtain ⟨res, db', hupd, hrows⟩ := update_job_ok now job_id u uidOpt db
  refine ⟨res, db', hupd, ?_⟩
  rw [hrows]
  apply forall2_map_of_forall
  intro r
  by_cases hmatch : matchesJob job_id uidOpt r = true
  · rw [if_pos hmatch]
    refine ⟨?_, ?_, ?_, rfl, rfl, rfl, rfl, rfl, rfl, rfl⟩
    · show u.status.getD r.status = r.status
      rw [hs]
      rfl
    · show (match u.error_message with
        | some v => some v
        | none => r.error_message) = r.error_message
      rw [he]
    · show (match u.modal_call_id with
        | some v => some v
        | none => r.modal_call_id) = r.modal_call_id
      rw [hmc]
  · rw [if_neg hmatch]
    exact ⟨rfl, rfl, rfl, rfl, rfl, rfl, rfl, rfl, rfl, rfl⟩

/-- C5 witness: an update of `job-0` carrying only `training_logs` leaves
every other field of every row of the three-job store unchanged. -/
theorem update_absent_fields_untouched_witness :
    ∃ res db', SupabaseService.update_job true 9 "job-0"
        { training_logs := some "epoch 1 done" } none exampleDb =
        Except.ok (res, db') ∧
      List.Forall₂ (fun r r' =>
        r'.status = r.status ∧ r'.error_message = r.error_message ∧
        r'.modal_call_id = r.modal_call_id ∧ r'.id = r.id ∧
        r'.user_id = r.user_id ∧ r'.name = r.name ∧
        r'.model_type = r.model_type ∧ r'.dataset_path = r.dataset_path ∧
        r'.hyperparameters = r.hyperparameters ∧ r'.created_at = r.created_at)
        exampleDb.rows db'.rows :=
  update_absent_fields_untouched 9 "job-0" none
    { training_logs := some "epoch 1 done" } exampleDb rfl rfl rfl

/-- C6: for every valid submission where both the store write and the queue
send succeed, `submit_job` returns the created Job unchanged — `status =
pending`, non-empty `id` — the store gains exactly that one pending row with
no further update to it, and the dispatch message is enqueued. -/
theorem submit_success_pending (now : Nat) (job : JobCreate) (uid : String)
    (db : DB) (q : List QueueMessage) :
    ∃ row : JobRow,
      (submit_job true true true now job uid db q).1 = Except.ok (toResponse row) ∧
      row.status = JobStatus.pending ∧
      row.id ≠ "" ∧
      (submit_job true true true now job uid db q).2.1.rows = db.rows ++ [row] ∧
      (submit_job true true true now job uid db q).2.2 =
        q ++ [{ job_id := row.id,
                job_data := { name := job.name,
                              model_type := job.model_type,
                              dataset_path := job.dataset_path,
                              hyperparameters := job.hyperparameters,
                              user_id := uid } }] := by
  exact ⟨insertedRow now job uid db, rfl, rfl, freshId_ne_empty _, rfl, rfl⟩

/-- C7 counterexample: the unscoped `/api/jobs/all` listing is reachable with
no authorization decision at all — an unauthenticated request (no resolved
principal) receives every Job, including those of owners `u1` and `u2`,
refuting the claim that ordinary callers cannot reach the unscoped listing. -/
theorem all_jobs_no_auth_cex :
    handle_get_all_jobs none true exampleDb =
      Except.ok [toResponse rowC, toResponse rowB, toResponse rowA] ∧
    rowA.user_id = "u1" ∧ rowB.user_id = "u2" := by
  exact ⟨rfl, rfl, rfl⟩

/-- C7 amended: the unscoped listing route performs no authorization check:
its result is the same for every caller credential (including none), and it
returns every stored Job regardless of owner. -/
theorem all_jobs_unscoped_ignores_auth (a1 a2 : Option String) (db : DB) :
    handle_get_all_jobs a1 true db = handle_get_all_jobs a2 true db ∧
    ∃ js, handle_get_all_jobs a1 true db = Except.ok js ∧
      ∀ r ∈ db.rows, toResponse r ∈ js := by
  refine ⟨rfl, (ordByCreatedDesc db.rows).map toResponse, rfl, ?_⟩
  intro r hr
  rw [List.mem_map]
  refine ⟨r, ?_, rfl⟩
  simp [ordByCreatedDesc, List.mem_insertionSort, hr]

/-- C8: both listing operations — the owner-scoped `get_jobs_by_user` and the
unscoped `get_all_jobs` — return the Jobs sorted by `created_at` descending
(newest first). -/
theorem listings_sorted :
    (∀ (uid : String) (db : DB) (js : List JobResponse),
        SupabaseService.get_jobs_by_user true uid db = Except.ok js →
        js.Sorted respLeDesc) ∧
    (∀ (db : DB) (js : List JobResponse),
        SupabaseService.get_all_jobs true db = Except.ok js →
        js.Sorted respLeDesc) := by
  constructor
  · intro uid db js h
    unfold SupabaseService.get_jobs_by_user at h
    rw [if_pos rfl] at h
    injection h with h
    rw [← h]
    exact sorted_ordByCreatedDesc_map _
  · intro db js h
    unfold SupabaseService.get_all_jobs at h
    rw [if_pos rfl] at h
    injection h with h
    rw [← h]
    exact sorted_ordByCreatedDesc_map _

/-- C8 witness: listing the three-job store (three jobs created at the
distinct times 1, 2, 3) yields them newest first, a sorted sequence. -/
theorem listings_sorted_witness :
    (SupabaseService.get_all_jobs true exampleDb =
      Except.ok [toResponse rowC, toResponse rowB, toResponse rowA]) ∧
    ([toResponse rowC, toResponse rowB, toResponse rowA] : List JobResponse).Sorted
      respLeDesc :=
  ⟨rfl, listings_sorted.2 exampleDb [toResponse rowC, toResponse rowB, toResponse rowA] rfl⟩

/-- C9: every successful `update_job` on an existing Job (one matching row)
returns a response whose `updated_at` is the time of the update, and the
stored row is refreshed likewise. -/
theorem update_refreshes_updated_at (now : Nat) (job_id : String)
    (uidOpt : Option String) (u : JobUpdate) (db : DB) (r : JobRow)
    (hr : r ∈ db.rows) (hm : matchesJob job_id uidOpt r = true) :
    ∃ resp db', SupabaseService.update_job true now job_id u uidOpt db =
        Except.ok (some resp, db') ∧
      resp.updated_at = some now ∧
      ∃ r' ∈ db'.rows, r'.id = r.id ∧ r'.updated_at = some now := by
  have hne : db.rows.filter (matchesJob job_id uidOpt) ≠ [] :=
    List.ne_nil_of_mem (List.mem_filter.mpr ⟨hr, hm⟩)
  cases hh : (db.rows.filter (matchesJob job_id uidOpt)).head? with
  | none =>
      exact absurd (List.head?_eq_none_iff.mp hh) hne
  | some r1 =>
      refine ⟨toResponse (applyUpdate now u r1),
        { rows := db.rows.map (fun x =>
            if matchesJob job_id uidOpt x then applyUpdate now u x else x),
          nextId := db.nextId }, ?_, rfl, applyUpdate now u r, ?_, rfl, rfl⟩
      · simp [SupabaseService.update_job, hh]
      · rw [List.mem_map]
        refine ⟨r, hr, ?_⟩
        rw [hm]
        exact if_pos rfl

/-- C9 witness: updating the existing job `job-0` at time 9 yields a response
and a stored row with `updated_at = 9`. -/
theorem update_refreshes_updated_at_witness :
    ∃ resp db', SupabaseService.update_job true 9 "job-0"
        { status := some JobStatus.training } none exampleDb =
        Except.ok (some resp, db') ∧
      resp.updated_at = some 9 ∧
      ∃ r' ∈ db'.rows, r'.id = rowA.id ∧ r'.updated_at = some 9 :=
  update_refreshes_updated_at 9 "job-0" none
    { status := some JobStatus.training } exampleDb rowA
    (by simp [exampleDb]) (by decide)

/-- C10: when the SQS client is not configured, `send_job_to_queue` reports
success for every job without enqueueing anything, so a submission in that
state returns a pending Job while the queue stays exactly as it was — no
dispatch message is ever enqueued. -/
theorem sqs_unconfigured_simulates_success (sendOk : Bool) (now : Nat)
    (job : JobCreate) (uid : String) (db : DB) (q : List QueueMessage)
    (job_id : String) (jd : JobData) :
    SQSService.send_job_to_queue false sendOk q job_id jd = (true, q) ∧
    ∃ row : JobRow,
      (submit_job true false sendOk now job uid db q).1 = Except.ok (toResponse row) ∧
      row.status = JobStatus.pending ∧
      (submit_job true false sendOk now job uid db q).2.2 = q ∧
      (submit_job true false sendOk now job uid db q).2.1.rows = db.rows ++ [row] := by
  exact ⟨rfl, insertedRow now job uid db, rfl, rfl, rfl, rfl⟩
